import Mathlib

/-!
Verification development for the DuckStation Qt host-interface bridge
(src/duckstation-qt/qthostinterface.cpp): the cross-thread command dispatch
pattern, the emulation run-loop, the debounced settings save, and the
fullscreen round-trips of the error/confirm notifications.

The emulation core, input subsystem and display backend are external
collaborators (spec section 6); their calls are recorded as events, and the
few collaborator state effects the claims depend on (boot, pause, power off,
startup cancellation) are modelled from the spec, as marked on each
definition.
-/

/-- System state as exposed by the core collaborator: System::IsShutdown
(no system), System::IsRunning, and the remaining valid-but-not-running
state (paused). -/
inductive SystemState
  | shutdown
  | running
  | paused
deriving DecidableEq, Repr

/-- A value stored in the layered INI settings store (bool/int/string/string
list variants of the SettingsInterface setters used in the source). -/
inductive SettingValue
  | b (v : Bool)
  | i (v : Int)
  | s (v : String)
  | strList (v : List String)
deriving DecidableEq, Repr

/-- A (section, key) pair of the settings store. -/
abbrev SettingsKey := String × String

/-- The in-memory settings store (s_base_settings_interface), as an
association list where the most recent write for a key comes first. -/
abbrev SettingsMap := List (SettingsKey × SettingValue)

/-- Write a value: the new entry shadows any older entry for the same key. -/
def SettingsMap.set (m : SettingsMap) (sec key : String) (v : SettingValue) : SettingsMap :=
  ((sec, key), v) :: m

/-- Look a key up (first, i.e. most recent, match wins). -/
def SettingsMap.get? : SettingsMap → String → String → Option SettingValue
  | [], _, _ => none
  | kv :: m, sec, key => if kv.1 = (sec, key) then some kv.2 else SettingsMap.get? m sec key

/-- GetIntValue with a default, as used for the version stamp. -/
def SettingsMap.getInt (m : SettingsMap) (sec key : String) (dflt : Int) : Int :=
  match SettingsMap.get? m sec key with
  | some (SettingValue.i v) => v
  | _ => dflt

/-- GetBoolValue with a default, as used for the render-to-main flag. -/
def SettingsMap.getBool (m : SettingsMap) (sec key : String) (dflt : Bool) : Bool :=
  match SettingsMap.get? m sec key with
  | some (SettingValue.b v) => v
  | _ => dflt

/-- The state of the settings subsystem: the in-memory store, the last
persisted (on-disk) contents, how many disk saves have happened, and the
single pending-save QTimer slot (s_settings_save_timer is one unique_ptr, so
at most one timer can be outstanding; the Option carries the delay the
single-shot timer was started with). -/
structure SettingsTimerState where
  timer : Option Nat
  store : SettingsMap
  disk : SettingsMap
  saveCount : Nat
deriving DecidableEq, Repr

/-- SETTINGS_SAVE_DELAY (qthostinterface.cpp line 58). -/
def SETTINGS_SAVE_DELAY : Nat := 1000

/-- QtHost::QueueSettingsSave (qthostinterface.cpp lines 1839-1848): if a
save timer already exists, return without touching it; otherwise create a
single-shot timer and start it with SETTINGS_SAVE_DELAY. -/
def QtHost.QueueSettingsSave (st : SettingsTimerState) : SettingsTimerState :=
  match st.timer with
  | some _ => st
  | none => { st with timer := some SETTINGS_SAVE_DELAY }

/-- A settings mutation: the (section, key) and the value written, after
which the source always calls QtHost::QueueSettingsSave (see the
QtHost::SetBase*SettingValue family, lines 1763-1823). -/
abbrev Mutation := SettingsKey × SettingValue

/-- One settings mutation as performed by QtHost::SetBase*SettingValue:
write the value under the settings lock, then queue the debounced save. -/
def applyMutation (mu : Mutation) (st : SettingsTimerState) : SettingsTimerState :=
  QtHost.QueueSettingsSave { st with store := SettingsMap.set st.store mu.1.1 mu.1.2 mu.2 }

/-- A burst of settings mutations applied in order. -/
def applyMutations (ms : List Mutation) (st : SettingsTimerState) : SettingsTimerState :=
  ms.foldl (fun a mu => applyMutation mu a) st

/-- The store contents after a list of mutations. -/
def mutStore (ms : List Mutation) (m : SettingsMap) : SettingsMap :=
  ms.foldl (fun a mu => SettingsMap.set a mu.1.1 mu.1.2 mu.2) m

/-- The command catalogue of the bridge: every public QtHostInterface
operation that follows the if-not-on-worker-thread-then-invokeMethod
dispatch pattern of qthostinterface.cpp, with its bound arguments. -/
inductive Cmd
  | bootSystem
  | resumeSystemFromState (filename : String) (bootOnFailure : Bool)
  | powerOffSystem
  | powerOffSystemWithoutSaving
  | synchronousPowerOffSystem
  | resetSystem
  | pauseSystem (paused : Bool) (waitUntilPaused : Bool)
  | changeDisc (filename : String)
  | changeDiscFromPlaylist (index : Nat)
  | loadCheatList (filename : String)
  | setCheatEnabled (index : Nat) (enabled : Bool)
  | applyCheat (index : Nat)
  | reloadPostProcessingShaders
  | requestRenderWindowScale (scale : Nat)
  | executeOnEmulationThread (wait : Bool)
  | loadStatePath (filename : String)
  | loadStateSlot (global : Bool) (slot : Int)
  | saveStatePath (filename : String) (blockUntilDone : Bool)
  | saveStateSlot (global : Bool) (slot : Int) (blockUntilDone : Bool)
  | undoLoadState
  | setAudioOutputVolume (volume : Int) (ffVolume : Int)
  | setAudioOutputMuted (muted : Bool)
  | startDumpingAudio
  | stopDumpingAudio
  | singleStepCPU
  | dumpRAM (filename : String)
  | dumpVRAM (filename : String)
  | dumpSPURAM (filename : String)
  | saveScreenshot
  | redrawDisplayWindow
  | toggleFullscreen
  | applySettings (displayOsdMessages : Bool)
  | setDefaultSettings
deriving DecidableEq, Repr

/-- Observable events. The first group (cancelPendingStartup, enqueue,
pumpCallerEvents, resetDoneEvent) happens on the calling (UI) thread inside
the dispatch wrappers; everything else is collaborator work performed by an
operation body or by the run-loop, on the worker thread. The execCmd marker
records that the worker began executing a drained command, together with the
system state at that moment. -/
inductive Event
  | cancelPendingStartup
  | enqueue
  | pumpCallerEvents
  | resetDoneEvent
  | runFrame
  | runFrames
  | pollSources
  | renderDisplay
  | updatePerfCounters
  | throttle
  | pollAndUpdate
  | emitSignal (name : String)
  | saveResumeState
  | resetOp
  | insertMedia (filename : String)
  | removeMedia
  | switchSubImage (index : Nat)
  | loadCheatListOp (filename : String)
  | setCheatState (index : Nat) (enabled : Bool)
  | applyCheatOp (index : Nat)
  | reloadShadersOp
  | requestWindowScaleOp (scale : Nat)
  | execCallback
  | signalDone
  | loadStateOp
  | saveStateOp
  | undoLoadStateOp
  | setAudioVolumeOp (volume : Int) (ffVolume : Int)
  | setAudioMutedOp (muted : Bool)
  | startDumpAudioOp
  | stopDumpAudioOp
  | singleStepOp
  | dumpRAMOp (filename : String)
  | dumpVRAMOp (filename : String)
  | dumpSPURAMOp (filename : String)
  | saveScreenshotOp
  | applySettingsOp
  | setDefaultsOp
  | updateDisplayRequested
  | updateSpeedLimiter
  | hostReportError
  | diskSave
  | execCmd (c : Cmd) (sysAt : SystemState)
deriving DecidableEq, Repr

/-- Events that the dispatch wrappers may perform on the calling (non-worker)
thread: cancelling a pending startup, enqueueing the command, and, for the
blocking executeOnEmulationThread, pumping the caller's event queue and
resetting the done event. -/
def Event.isCallerSide : Event → Bool
  | Event.cancelPendingStartup => true
  | Event.enqueue => true
  | Event.pumpCallerEvents => true
  | Event.resetDoneEvent => true
  | _ => false

/-- Emulation stepping, input polling and rendering: the work the spec's
thread invariant says only ever happens on the worker thread. -/
def Event.isEmulationWork : Event → Bool
  | Event.runFrame => true
  | Event.runFrames => true
  | Event.pollSources => true
  | Event.renderDisplay => true
  | _ => false

/-- The failure modes of QtHost::SaveSettings: its own AssertMsg firing, or
the deleteLater call on an already-null s_settings_save_timer. -/
inductive TeardownFailure
  | assertionFailed
  | nullTimerDeref
deriving DecidableEq, Repr

/-- QtHost::SaveSettings (qthostinterface.cpp lines 1825-1837). It first
asserts that it is NOT running on the worker thread (the AssertMsg reads
"Saving should happen on the UI thread."); per the spec's error model
(section 7) a contract-violation assertion is fatal, modelled as an error
before anything is saved. The settings are then written to disk under the
lock, and finally the timer slot is cleared via
s_settings_save_timer->deleteLater(), which dereferences a null pointer when
no timer is present. isOnWorkerThread itself is declared outside src/ and
is modelled from the spec: true exactly on the worker thread. -/
def QtHost.SaveSettings (onWorkerThread : Bool) (st : SettingsTimerState) :
    Except TeardownFailure (SettingsTimerState × List Event) :=
  if onWorkerThread then Except.error TeardownFailure.assertionFailed
  else
    let st1 := { st with disk := st.store, saveCount := st.saveCount + 1 }
    match st1.timer with
    | some _ => Except.ok ({ st1 with timer := none }, [Event.diskSave])
    | none => Except.error TeardownFailure.nullTimerDeref

/-- The pending-save flush at the end of QtHostInterface::threadEntryPoint
(lines 1625-1629): if a save timer is outstanding, the unique_ptr is reset
first and QtHost::SaveSettings is then called — still on the worker thread,
since moveToThread back to the UI thread only happens afterwards (line
1632). -/
def threadTeardownFlush (st : SettingsTimerState) :
    Except TeardownFailure (SettingsTimerState × List Event) :=
  if st.timer.isSome then
    QtHost.SaveSettings true { st with timer := none }
  else Except.ok (st, [])

/-- QtHostInterface::SetDefaultSettings(SettingsInterface&) (lines 777-788):
apply the CommonHostInterface defaults (a collaborator outside src/, passed
in as a list), then the Qt-specific hotkey defaults and the render-to-main
default. -/
def QtHostInterface.SetDefaultSettingsOn (commonDefaults : List (SettingsKey × SettingValue))
    (si : SettingsMap) : SettingsMap :=
  let si1 := commonDefaults.foldl (fun m kv => SettingsMap.set m kv.1.1 kv.1.2 kv.2) si
  let si2 := SettingsMap.set si1 ("Hotkeys") ("PowerOff") (SettingValue.s ("Keyboard/Escape"))
  let si3 := SettingsMap.set si2 ("Hotkeys") ("LoadSelectedSaveState") (SettingValue.s ("Keyboard/F1"))
  let si4 := SettingsMap.set si3 ("Hotkeys") ("SaveSelectedSaveState") (SettingValue.s ("Keyboard/F2"))
  let si5 := SettingsMap.set si4 ("Hotkeys") ("SelectPreviousSaveStateSlot") (SettingValue.s ("Keyboard/F3"))
  let si6 := SettingsMap.set si5 ("Hotkeys") ("SelectNextSaveStateSlot") (SettingValue.s ("Keyboard/F4"))
  SettingsMap.set si6 ("Main") ("RenderToMainWindow") (SettingValue.b true)

/-- The settings-version check of QtHostInterface::initializeOnThread (lines
135-145): read the version stamp (default -1); on mismatch report an error,
Clear() the store, write the expected stamp, apply the defaults and Save();
on match keep the loaded settings untouched. settingsVersion stands for the
SETTINGS_VERSION constant of the core collaborator. -/
def QtHostInterface.checkSettingsVersion (settingsVersion : Int)
    (commonDefaults : List (SettingsKey × SettingValue)) (si : SettingsMap) :
    SettingsMap × List Event :=
  let v := SettingsMap.getInt si ("Main") ("SettingsVersion") (-1)
  if v ≠ settingsVersion then
    let cleared : SettingsMap := []
    let stamped := SettingsMap.set cleared ("Main") ("SettingsVersion") (SettingValue.i settingsVersion)
    (QtHostInterface.SetDefaultSettingsOn commonDefaults stamped,
     [Event.hostReportError, Event.diskSave])
  else (si, [])

/-- The bridge-visible state: the core's system state, the core's
startup-cancellation flag (System::CancelPendingStartup), the member flags of
QtHostInterface that the claims touch, and the settings subsystem. -/
structure BridgeState where
  systemState : SystemState
  startupCancelled : Bool
  hasDisplay : Bool
  isFullscreen : Bool
  exclusiveFullscreen : Bool
  fullscreenUIInitialized : Bool
  renderingToMain : Bool
  displayAllFrames : Bool
  frameStepRequest : Bool
  throttlerEnabled : Bool
  shutdownFlag : Bool
  settings : SettingsTimerState
deriving DecidableEq, Repr

/-- Collaborator responses that the bridge consumes: the display's actual
fullscreen state after an update, whether a resume state should be saved on
power off, the user's answer to a confirmation dialog, how many TryWait(10)
polls fail before the worker signals the sync-execute done event, and the
CommonHostInterface default settings. -/
structure Env where
  dispIsFullscreen : Bool → Bool
  shouldSaveResumeState : Bool
  confirmResponse : Bool
  syncDonePolls : Nat
  switchSubImageOk : Bool
  defaults : List (SettingsKey × SettingValue)

/-- The Qt connection type a dispatch wrapper passes to
QMetaObject::invokeMethod: Qt::QueuedConnection (fire and forget) or
Qt::BlockingQueuedConnection (the caller is suspended until the slot has run
on the worker thread). -/
inductive ConnType
  | queuedConn
  | blockingQueuedConn
deriving DecidableEq, Repr

/-- Whether a call dispatched with this connection type returns to the
caller only after the worker thread has executed the body (SyncBlocking
delivery in the spec's terms). -/
def ConnType.isSyncBlocking : ConnType → Bool
  | ConnType.queuedConn => false
  | ConnType.blockingQueuedConn => true

/-- Whether the caller keeps servicing its own event queue while it waits.
Per Qt's documented semantics a Qt::BlockingQueuedConnection wait is a plain
semaphore wait: the calling thread is suspended and runs no event loop until
the slot returns. (A queued connection does not wait at all.) The only
event-pumping wait in the source is the explicit TryWait(10)/processEvents
loop of executeOnEmulationThread, which is modelled separately. -/
def ConnType.pumpsCallerEventsWhileWaiting : ConnType → Bool
  | ConnType.queuedConn => false
  | ConnType.blockingQueuedConn => false

/-- A command queued for the worker thread with its delivery mode. -/
structure QueuedCall where
  cmd : Cmd
  mode : ConnType
deriving DecidableEq, Repr

/-- The worker-thread method a wrapper's invokeMethod names. Every wrapper
re-enters itself, except synchronousPowerOffSystem, which invokes
"powerOffSystem" (qthostinterface.cpp line 865). -/
def queuedTarget : Cmd → Cmd
  | Cmd.synchronousPowerOffSystem => Cmd.powerOffSystem
  | c => c

/-- The connection type each wrapper passes to invokeMethod, from the
source: pauseSystem uses BlockingQueuedConnection when wait_until_paused
(line 895), the saveState overloads when block_until_done (lines 1319,
1332), synchronousPowerOffSystem always (line 865), singleStepCPU always
(line 1408); every other wrapper uses Qt::QueuedConnection. -/
def queuedMode : Cmd → ConnType
  | Cmd.pauseSystem _ true => ConnType.blockingQueuedConn
  | Cmd.saveStatePath _ true => ConnType.blockingQueuedConn
  | Cmd.saveStateSlot _ _ true => ConnType.blockingQueuedConn
  | Cmd.synchronousPowerOffSystem => ConnType.blockingQueuedConn
  | Cmd.singleStepCPU => ConnType.blockingQueuedConn
  | _ => ConnType.queuedConn

/-- The TryWait timeout, in milliseconds, of the blocking
executeOnEmulationThread wait loop (qthostinterface.cpp line 1278). -/
def SYNC_EXECUTE_POLL_MS : Nat := 10

/-- The caller-side wait loop of a blocking executeOnEmulationThread (lines
1275-1281): while TryWait(SYNC_EXECUTE_POLL_MS) times out, the caller pumps
its own event queue with qApp->processEvents; once the done event is
observed the loop exits and the event is Reset. failedPolls is the number of
timed-out polls before the worker signals completion. -/
def syncExecuteWaitEvents : Nat → List Event
  | 0 => [Event.resetDoneEvent]
  | n + 1 => Event.pumpCallerEvents :: syncExecuteWaitEvents n

/-- The outcome of calling a bridge wrapper on some thread: the state as
visible when the call returns on that thread, the events that thread
performed, and the commands it queued for the worker thread. -/
structure Dispatched where
  state : BridgeState
  events : List Event
  queued : List QueuedCall
deriving DecidableEq, Repr

/-- QtHostInterface::updateDisplayState (lines 628-654): re-acquire the
display for the current fullscreen / render-to-main flags, record the
display's actual fullscreen state in m_is_exclusive_fullscreen, and, when a
system exists and the fullscreen UI is not active, redraw; finally update
the speed limiter. -/
def QtHostInterface.updateDisplayState (env : Env) (s : BridgeState) : BridgeState × List Event :=
  if s.hasDisplay = false then (s, [])
  else
    let s1 := { s with exclusiveFullscreen := env.dispIsFullscreen s.isFullscreen }
    let tail :=
      if s1.systemState = SystemState.shutdown then []
      else if s1.fullscreenUIInitialized = false then [Event.renderDisplay]
      else []
    (s1, Event.updateDisplayRequested :: tail ++ [Event.updateSpeedLimiter])

/-- QtHostInterface::SetFullscreen (lines 673-681): when the requested state
already equals m_is_fullscreen, return true without touching the display;
otherwise record the new flag, update the display state, and return true. -/
def QtHostInterface.SetFullscreen (env : Env) (enabled : Bool) (s : BridgeState) :
    BridgeState × List Event × Bool :=
  if s.isFullscreen = enabled then (s, [], true)
  else
    let s1 := { s with isFullscreen := enabled }
    let r := QtHostInterface.updateDisplayState env s1
    (r.1, r.2, true)

/-- QtHostInterface::checkRenderToMainState (lines 369-385): when a system
exists, detect a change of the render-to-main setting (only acted on while a
display exists and fullscreen is off) and update the display state, else
redraw when the fullscreen UI is not active. -/
def QtHostInterface.checkRenderToMainState (env : Env) (s : BridgeState) :
    BridgeState × List Event :=
  if s.systemState = SystemState.shutdown then (s, [])
  else
    let renderToMain := SettingsMap.getBool s.settings.store ("Main") ("RenderToMainWindow") true
    if s.hasDisplay = true ∧ s.isFullscreen = false ∧ renderToMain ≠ s.renderingToMain then
      QtHostInterface.updateDisplayState env { s with renderingToMain := renderToMain }
    else if s.fullscreenUIInitialized = false then (s, [Event.renderDisplay])
    else (s, [])

/-- Modelled from the spec: CommonHostInterface::PauseSystem (frontend-common,
not under src/). Pausing a running system moves it to Paused — the paused
notification is emitted and, per QtHostInterface::OnSystemPaused in the
source (line 728), a frame is rendered; resuming a paused system moves it
back to Running with the notification; anything else is a no-op. -/
def CommonHostInterface.PauseSystem (paused : Bool) (s : BridgeState) : BridgeState × List Event :=
  if paused = true ∧ s.systemState = SystemState.running then
    ({ s with systemState := SystemState.paused },
     [Event.emitSignal ("emulationPaused"), Event.renderDisplay])
  else if paused = false ∧ s.systemState = SystemState.paused then
    ({ s with systemState := SystemState.running }, [Event.emitSignal ("emulationPaused")])
  else (s, [])

/-- Modelled from the spec: HostInterface::PowerOffSystem(save_resume_state)
(core, not under src/): a valid system is destroyed (optionally saving the
resume state first) and the stopped notification is emitted; a no-op when no
system exists. -/
def HostInterface.PowerOffSystem (saveResumeState : Bool) (s : BridgeState) : Dispatched :=
  if s.systemState = SystemState.shutdown then ⟨s, [], []⟩
  else
    ⟨{ s with systemState := SystemState.shutdown },
     (if saveResumeState then [Event.saveResumeState] else []) ++
       [Event.emitSignal ("emulationStopped")], []⟩

/-- The body of each bridge operation as it executes on the worker thread
(the code below each wrapper's early-return in qthostinterface.cpp). Core
effects (boot success, startup cancellation, pause, power off) are modelled
from the spec: a boot whose startup was cancelled never reaches the running
state and consumes the cancellation; an uncancelled boot succeeds and the
system transitions to running. -/
def QtHostInterface.execBody (env : Env) (c : Cmd) (s : BridgeState) : Dispatched :=
  match c with
  | Cmd.bootSystem =>
      if s.startupCancelled then
        ⟨{ s with startupCancelled := false }, [Event.emitSignal ("emulationStarting")], []⟩
      else
        ⟨{ s with systemState := SystemState.running },
         [Event.emitSignal ("emulationStarting"), Event.renderDisplay], []⟩
  | Cmd.resumeSystemFromState _ _ =>
      if s.startupCancelled then
        ⟨{ s with startupCancelled := false }, [Event.emitSignal ("emulationStarting")], []⟩
      else
        ⟨{ s with systemState := SystemState.running },
         [Event.emitSignal ("emulationStarting"), Event.loadStateOp], []⟩
  | Cmd.powerOffSystem => HostInterface.PowerOffSystem env.shouldSaveResumeState s
  | Cmd.powerOffSystemWithoutSaving => HostInterface.PowerOffSystem false s
  | Cmd.synchronousPowerOffSystem => HostInterface.PowerOffSystem env.shouldSaveResumeState s
  | Cmd.resetSystem =>
      if s.systemState = SystemState.shutdown then ⟨s, [], []⟩
      else ⟨s, [Event.resetOp], []⟩
  | Cmd.pauseSystem paused _ =>
      let r := CommonHostInterface.PauseSystem paused s
      ⟨r.1, r.2, []⟩
  | Cmd.changeDisc filename =>
      if s.systemState = SystemState.shutdown then ⟨s, [], []⟩
      else if filename ≠ "" then ⟨s, [Event.insertMedia filename], []⟩
      else ⟨s, [Event.removeMedia], []⟩
  | Cmd.changeDiscFromPlaylist index =>
      if s.systemState = SystemState.shutdown then ⟨s, [], []⟩
      else if env.switchSubImageOk then ⟨s, [Event.switchSubImage index], []⟩
      else ⟨s, [Event.switchSubImage index, Event.hostReportError], []⟩
  | Cmd.loadCheatList filename => ⟨s, [Event.loadCheatListOp filename], []⟩
  | Cmd.setCheatEnabled index enabled =>
      ⟨s, [Event.setCheatState index enabled, Event.emitSignal ("cheatEnabled")], []⟩
  | Cmd.applyCheat index => ⟨s, [Event.applyCheatOp index], []⟩
  | Cmd.reloadPostProcessingShaders => ⟨s, [Event.reloadShadersOp], []⟩
  | Cmd.requestRenderWindowScale scale => ⟨s, [Event.requestWindowScaleOp scale], []⟩
  | Cmd.executeOnEmulationThread wait =>
      ⟨s, Event.execCallback :: (if wait then [Event.signalDone] else []), []⟩
  | Cmd.loadStatePath _ =>
      if s.systemState = SystemState.shutdown then
        ⟨{ s with systemState := SystemState.running },
         [Event.emitSignal ("emulationStarting"), Event.loadStateOp], []⟩
      else ⟨s, [Event.loadStateOp], []⟩
  | Cmd.loadStateSlot _ _ =>
      if s.systemState = SystemState.shutdown then
        ⟨{ s with systemState := SystemState.running }, [Event.loadStateOp], []⟩
      else ⟨s, [Event.loadStateOp], []⟩
  | Cmd.saveStatePath _ _ =>
      if s.systemState = SystemState.shutdown then ⟨s, [], []⟩
      else ⟨s, [Event.saveStateOp], []⟩
  | Cmd.saveStateSlot _ _ _ =>
      if s.systemState = SystemState.shutdown then ⟨s, [], []⟩
      else ⟨s, [Event.saveStateOp], []⟩
  | Cmd.undoLoadState => ⟨s, [Event.undoLoadStateOp], []⟩
  | Cmd.setAudioOutputVolume volume ffVolume =>
      ⟨s, [Event.setAudioVolumeOp volume ffVolume], []⟩
  | Cmd.setAudioOutputMuted muted => ⟨s, [Event.setAudioMutedOp muted], []⟩
  | Cmd.startDumpingAudio => ⟨s, [Event.startDumpAudioOp], []⟩
  | Cmd.stopDumpingAudio => ⟨s, [Event.stopDumpAudioOp], []⟩
  | Cmd.singleStepCPU =>
      if s.systemState = SystemState.shutdown then ⟨s, [], []⟩
      else ⟨s, [Event.singleStepOp, Event.renderDisplay], []⟩
  | Cmd.dumpRAM filename =>
      ⟨s, [Event.dumpRAMOp filename, Event.emitSignal ("messageReported")], []⟩
  | Cmd.dumpVRAM filename =>
      ⟨s, [Event.dumpVRAMOp filename, Event.emitSignal ("messageReported")], []⟩
  | Cmd.dumpSPURAM filename =>
      ⟨s, [Event.dumpSPURAMOp filename, Event.emitSignal ("messageReported")], []⟩
  | Cmd.saveScreenshot => ⟨s, [Event.saveScreenshotOp], []⟩
  | Cmd.redrawDisplayWindow =>
      if s.hasDisplay = false ∨ s.systemState = SystemState.shutdown then ⟨s, [], []⟩
      else ⟨s, [Event.renderDisplay], []⟩
  | Cmd.toggleFullscreen =>
      let r := QtHostInterface.SetFullscreen env (!s.isFullscreen) s
      ⟨r.1, r.2.1, []⟩
  | Cmd.applySettings _ =>
      let r := QtHostInterface.checkRenderToMainState env s
      ⟨r.1, Event.applySettingsOp :: r.2, []⟩
  | Cmd.setDefaultSettings =>
      let r := QtHostInterface.checkRenderToMainState env s
      ⟨{ r.1 with settings := QtHost.QueueSettingsSave r.1.settings },
       Event.setDefaultsOp :: r.2 ++ [Event.emitSignal ("settingsResetToDefault")], []⟩

/-- The dispatch pattern of every public bridge operation (spec section 4.2,
qthostinterface.cpp throughout): when the call arrives on a non-worker
thread, the command is queued via invokeMethod with the operation's
connection type and the wrapper returns — the power-off family first calls
System::CancelPendingStartup (lines 840, 852, 864), and a blocking
executeOnEmulationThread additionally runs its caller-side wait loop; on the
worker thread the body executes directly. -/
def QtHostInterface.dispatch (env : Env) (onWorkerThread : Bool) (c : Cmd) (s : BridgeState) :
    Dispatched :=
  if onWorkerThread then QtHostInterface.execBody env c s
  else
    match c with
    | Cmd.powerOffSystem =>
        ⟨{ s with startupCancelled := true },
         [Event.cancelPendingStartup, Event.enqueue],
         [⟨Cmd.powerOffSystem, ConnType.queuedConn⟩]⟩
    | Cmd.powerOffSystemWithoutSaving =>
        ⟨{ s with startupCancelled := true },
         [Event.cancelPendingStartup, Event.enqueue],
         [⟨Cmd.powerOffSystemWithoutSaving, ConnType.queuedConn⟩]⟩
    | Cmd.synchronousPowerOffSystem =>
        ⟨{ s with startupCancelled := true },
         [Event.cancelPendingStartup, Event.enqueue],
         [⟨Cmd.powerOffSystem, ConnType.blockingQueuedConn⟩]⟩
    | Cmd.executeOnEmulationThread wait =>
        ⟨s, Event.enqueue :: (if wait then syncExecuteWaitEvents env.syncDonePolls else []),
         [⟨Cmd.executeOnEmulationThread wait, ConnType.queuedConn⟩]⟩
    | c => ⟨s, [Event.enqueue], [⟨queuedTarget c, queuedMode c⟩]⟩

/-- QtHostInterface::ReportError (lines 225-237): report through the host
base class, drop out of fullscreen if currently fullscreen, emit the
errorReported notification, and restore fullscreen. -/
def QtHostInterface.ReportError (env : Env) (s : BridgeState) : BridgeState × List Event :=
  let was := s.isFullscreen
  let r1 := if was then QtHostInterface.SetFullscreen env false s else (s, [], true)
  let r2 := if was then QtHostInterface.SetFullscreen env true r1.1 else (r1.1, [], true)
  (r2.1, Event.hostReportError :: r1.2.1 ++ (Event.emitSignal ("errorReported") :: r2.2.1))

/-- QtHostInterface::ConfirmMessage (lines 253-265): drop out of fullscreen
if currently fullscreen, ask the UI via the messageConfirmed signal, restore
fullscreen, and return the user's answer. -/
def QtHostInterface.ConfirmMessage (env : Env) (s : BridgeState) :
    BridgeState × List Event × Bool :=
  let was := s.isFullscreen
  let r1 := if was then QtHostInterface.SetFullscreen env false s else (s, [], true)
  let r2 := if was then QtHostInterface.SetFullscreen env true r1.1 else (r1.1, [], true)
  (r2.1, r1.2.1 ++ (Event.emitSignal ("messageConfirmed") :: r2.2.1), env.confirmResponse)

/-- The worker thread drains its event queue (processEvents(AllEvents) /
exec()): each queued command is executed in FIFO order by re-entering its
dispatch on the worker thread; an execCmd marker records the system state at
the moment each command begins executing. -/
def drainQueue (env : Env) : BridgeState → List QueuedCall → BridgeState × List Event
  | s, [] => (s, [])
  | s, qc :: rest =>
    let d := QtHostInterface.dispatch env true qc.cmd s
    let r := drainQueue env d.state rest
    (r.1, Event.execCmd qc.cmd s.systemState :: d.events ++ r.2)

/-- The states at which each drained command begins executing (and the final
state), in order. -/
def drainStates (env : Env) : BridgeState → List QueuedCall → List BridgeState
  | s, [] => [s]
  | s, qc :: rest => s :: drainStates env (QtHostInterface.dispatch env true qc.cmd s).state rest

/-- The Active-state step of the run-loop: the body of the
if (System::IsRunning()) branch of QtHostInterface::threadEntryPoint (lines
1583-1603) — run one frame or a batch depending on m_display_all_frames,
poll input sources, honour a pending frame-step request by clearing it and
pausing, render, update performance counters, and throttle when enabled. -/
def QtHostInterface.runLoopActiveStep (env : Env) (s : BridgeState) : BridgeState × List Event :=
  let e1 := if s.displayAllFrames then [Event.runFrame] else [Event.runFrames]
  let stepped :=
    if s.frameStepRequest then
      CommonHostInterface.PauseSystem true { s with frameStepRequest := false }
    else (s, [])
  (stepped.1,
   e1 ++ Event.pollSources :: stepped.2 ++
     [Event.renderDisplay, Event.updatePerfCounters] ++
     (if s.throttlerEnabled then [Event.throttle] else []))

/-- One iteration of the run-loop of QtHostInterface::threadEntryPoint
(lines 1581-1619), given the commands currently queued for the worker
thread. Running: the active step, then processEvents(AllEvents) (drains the
queue) and PollAndUpdate. Not running with no fullscreen UI or no system:
the loop parks in m_worker_thread_event_loop->exec(), which processes queued
commands until the loop is woken, then continues (skipping the tail
processEvents / PollAndUpdate). Otherwise: render the UI overlay, then drain
and PollAndUpdate. -/
def QtHostInterface.runLoopIteration (env : Env) (s : BridgeState) (q : List QueuedCall) :
    BridgeState × List QueuedCall × List Event :=
  if s.systemState = SystemState.running then
    let a := QtHostInterface.runLoopActiveStep env s
    let d := drainQueue env a.1 q
    (d.1, [], a.2 ++ d.2 ++ [Event.pollAndUpdate])
  else if s.fullscreenUIInitialized = false ∨ s.systemState = SystemState.shutdown then
    let d := drainQueue env s q
    (d.1, [], d.2)
  else
    let d := drainQueue env s q
    (d.1, [], Event.renderDisplay :: d.2 ++ [Event.pollAndUpdate])

/-- A SyncBlocking round trip as the caller observes it: the wrapper runs on
the calling thread (queueing the command), the worker drains and executes
the queued command, and only then does control return — the semantics of
Qt::BlockingQueuedConnection and of the sync-execute done-event protocol. -/
def blockingInvoke (env : Env) (c : Cmd) (s : BridgeState) : BridgeState × List Event :=
  let d := QtHostInterface.dispatch env false c s
  let r := drainQueue env d.state d.queued
  (r.1, d.events ++ r.2)

/-- The commands recorded as executed (in order) in a run-loop trace. -/
def execCmds (t : List Event) : List Cmd :=
  t.filterMap (fun e => match e with | Event.execCmd c _ => some c | _ => none)

/-- The system state at which each drained command began executing, in
order, as recorded in a trace. -/
def execCmdSystemStates (t : List Event) : List SystemState :=
  t.filterMap (fun e => match e with | Event.execCmd _ st => some st | _ => none)

/-- A fixed collaborator environment for concrete evaluations. -/
def env0 : Env :=
  { dispIsFullscreen := fun b => b
    shouldSaveResumeState := false
    confirmResponse := true
    syncDonePolls := 0
    switchSubImageOk := true
    defaults := [] }

/-- An empty settings subsystem. -/
def sampleSettings : SettingsTimerState :=
  { timer := none, store := [], disk := [], saveCount := 0 }

/-- A concrete running-system bridge state. -/
def sampleRunning : BridgeState :=
  { systemState := SystemState.running
    startupCancelled := false
    hasDisplay := true
    isFullscreen := false
    exclusiveFullscreen := false
    fullscreenUIInitialized := false
    renderingToMain := true
    displayAllFrames := true
    frameStepRequest := false
    throttlerEnabled := true
    shutdownFlag := false
    settings := sampleSettings }

/-- A concrete bridge state with no system (a boot still pending). -/
def sampleShutdown : BridgeState :=
  { sampleRunning with systemState := SystemState.shutdown }

/-- The spec's ordering test: queue a pause, then a slot load. -/
def pauseThenLoad : List QueuedCall :=
  [⟨Cmd.pauseSystem true false, ConnType.queuedConn⟩,
   ⟨Cmd.loadStateSlot false 1, ConnType.queuedConn⟩]

/-- The three power-off wrappers of the bridge. -/
def powerOffFamily : List Cmd :=
  [Cmd.powerOffSystem, Cmd.powerOffSystemWithoutSaving, Cmd.synchronousPowerOffSystem]

/-- A settings subsystem with a pending (armed) save timer and unsaved
changes in the store. -/
def samplePendingSave : SettingsTimerState :=
  { timer := some SETTINGS_SAVE_DELAY
    store := [((("Main"), ("Language")), SettingValue.s ("en"))]
    disk := []
    saveCount := 0 }

/-- A concrete settings mutation. -/
def mutA : Mutation := ((("Main"), ("Language")), SettingValue.s ("de"))

/-- A second concrete settings mutation to the same key. -/
def mutB : Mutation := ((("Main"), ("Language")), SettingValue.s ("fr"))

/-! Helper lemmas. -/

/-- On the worker thread, dispatch runs the body directly. -/
theorem dispatch_on_worker (env : Env) (c : Cmd) (s : BridgeState) :
    QtHostInterface.dispatch env true c s = QtHostInterface.execBody env c s := rfl

/-- updateDisplayState touches only the exclusive-fullscreen record. -/
theorem updateDisplayState_preserves (env : Env) (s : BridgeState) :
    (QtHostInterface.updateDisplayState env s).1.isFullscreen = s.isFullscreen ∧
    (QtHostInterface.updateDisplayState env s).1.systemState = s.systemState ∧
    (QtHostInterface.updateDisplayState env s).1.settings = s.settings ∧
    (QtHostInterface.updateDisplayState env s).1.startupCancelled = s.startupCancelled ∧
    (QtHostInterface.updateDisplayState env s).1.frameStepRequest = s.frameStepRequest ∧
    (QtHostInterface.updateDisplayState env s).1.throttlerEnabled = s.throttlerEnabled ∧
    (QtHostInterface.updateDisplayState env s).1.displayAllFrames = s.displayAllFrames ∧
    (QtHostInterface.updateDisplayState env s).1.shutdownFlag = s.shutdownFlag := by
  unfold QtHostInterface.updateDisplayState
  split <;> exact ⟨rfl, rfl, rfl, rfl, rfl, rfl, rfl, rfl⟩

/-- After SetFullscreen the recorded fullscreen flag equals the request. -/
theorem SetFullscreen_flag (env : Env) (e : Bool) (s : BridgeState) :
    (QtHostInterface.SetFullscreen env e s).1.isFullscreen = e := by
  by_cases h : s.isFullscreen = e
  · simp [QtHostInterface.SetFullscreen, h]
  · simp only [QtHostInterface.SetFullscreen, h, if_false, ite_false]
    have := (updateDisplayState_preserves env { s with isFullscreen := e }).1
    simpa using this

/-- SetFullscreen always returns true. -/
theorem SetFullscreen_returns_true (env : Env) (e : Bool) (s : BridgeState) :
    (QtHostInterface.SetFullscreen env e s).2.2 = true := by
  by_cases h : s.isFullscreen = e <;> simp [QtHostInterface.SetFullscreen, h]

/-- SetFullscreen leaves the system state untouched. -/
theorem SetFullscreen_systemState (env : Env) (e : Bool) (s : BridgeState) :
    (QtHostInterface.SetFullscreen env e s).1.systemState = s.systemState := by
  by_cases h : s.isFullscreen = e
  · simp [QtHostInterface.SetFullscreen, h]
  · simp only [QtHostInterface.SetFullscreen, h, if_false, ite_false]
    exact (updateDisplayState_preserves env { s with isFullscreen := e }).2.1

/-- SetFullscreen leaves the settings subsystem untouched. -/
theorem SetFullscreen_settings (env : Env) (e : Bool) (s : BridgeState) :
    (QtHostInterface.SetFullscreen env e s).1.settings = s.settings := by
  by_cases h : s.isFullscreen = e
  · simp [QtHostInterface.SetFullscreen, h]
  · simp only [QtHostInterface.SetFullscreen, h, if_false, ite_false]
    exact (updateDisplayState_preserves env { s with isFullscreen := e }).2.2.1

/-- Every event of the sync-execute wait loop happens on the calling thread. -/
theorem syncWait_callerSide (n : Nat) :
    (syncExecuteWaitEvents n).all Event.isCallerSide = true := by
  induction n with
  | zero => rfl
  | succ n ih => simp [syncExecuteWaitEvents, List.all_cons, Event.isCallerSide, ih]

/-- The sync-execute wait loop pumps the caller's event queue once per
failed poll and resets the done event at the end. -/
theorem syncWait_replicate (n : Nat) :
    syncExecuteWaitEvents n = List.replicate n Event.pumpCallerEvents ++ [Event.resetDoneEvent] := by
  induction n with
  | zero => rfl
  | succ n ih => simp [syncExecuteWaitEvents, List.replicate_succ, ih]

/-- execCmds distributes over concatenation. -/
theorem execCmds_append (t1 t2 : List Event) :
    execCmds (t1 ++ t2) = execCmds t1 ++ execCmds t2 :=
  List.filterMap_append t1 t2 _

/-- A leading render leaves the executed-command trace unchanged. -/
theorem execCmds_render_cons (t : List Event) :
    execCmds (Event.renderDisplay :: t) = execCmds t := rfl

/-- The tail PollAndUpdate records no executed command. -/
theorem execCmds_pollAndUpdate : execCmds [Event.pollAndUpdate] = [] := rfl

/-- No operation body records an executed-command marker of its own. -/
theorem execCmds_execBody (env : Env) (c : Cmd) (s : BridgeState) :
    execCmds (QtHostInterface.execBody env c s).events = [] := by
  cases c <;>
    simp only [QtHostInterface.execBody, HostInterface.PowerOffSystem,
      CommonHostInterface.PauseSystem, QtHostInterface.SetFullscreen,
      QtHostInterface.updateDisplayState, QtHostInterface.checkRenderToMainState] <;>
    (repeat' split) <;> rfl

/-- The active step of the run-loop records no executed-command marker. -/
theorem execCmds_activeStep (env : Env) (s : BridgeState) :
    execCmds (QtHostInterface.runLoopActiveStep env s).2 = [] := by
  unfold QtHostInterface.runLoopActiveStep CommonHostInterface.PauseSystem
  (repeat' split) <;> rfl

/-- A marker contributes its command to the executed-command trace. -/
theorem execCmds_marker_cons (c : Cmd) (st : SystemState) (t : List Event) :
    execCmds (Event.execCmd c st :: t) = c :: execCmds t := rfl

/-- Draining the queue executes exactly the queued commands, in FIFO order. -/
theorem drainQueue_execCmds (env : Env) (q : List QueuedCall) :
    ∀ s : BridgeState, execCmds (drainQueue env s q).2 = q.map QueuedCall.cmd := by
  induction q with
  | nil => intro s; rfl
  | cons qc rest ih =>
    intro s
    show execCmds (Event.execCmd qc.cmd s.systemState ::
      ((QtHostInterface.dispatch env true qc.cmd s).events ++
        (drainQueue env (QtHostInterface.dispatch env true qc.cmd s).state rest).2)) = _
    rw [execCmds_marker_cons, execCmds_append, dispatch_on_worker, execCmds_execBody, ih]
    rfl

/-- A mutation arriving while the save timer is pending updates the store
but leaves the timer exactly as it was (no rearm). -/
theorem applyMutation_pending (mu : Mutation) (st : SettingsTimerState)
    (h : st.timer.isSome = true) :
    applyMutation mu st = { st with store := SettingsMap.set st.store mu.1.1 mu.1.2 mu.2 } := by
  unfold applyMutation QtHost.QueueSettingsSave
  cases htm : st.timer with
  | none => rw [htm] at h; simp at h
  | some d => simp

/-- A fold of mutations over a pending timer only accumulates store writes. -/
theorem applyMutations_pending (ms : List Mutation) :
    ∀ st : SettingsTimerState, st.timer.isSome = true →
      applyMutations ms st = { st with store := mutStore ms st.store } := by
  induction ms with
  | nil => intro st _; rfl
  | cons mu ms ih =>
    intro st h
    have h1 : applyMutations (mu :: ms) st = applyMutations ms (applyMutation mu st) := rfl
    rw [h1, applyMutation_pending mu st h, ih _ (by simpa using h)]
    rfl

/-- Reading back a freshly written integer value. -/
theorem getInt_set_same (m : SettingsMap) (sec key : String) (v : Int) (d : Int) :
    SettingsMap.getInt (SettingsMap.set m sec key (SettingValue.i v)) sec key d = v := by
  simp [SettingsMap.getInt, SettingsMap.set, SettingsMap.get?]

/-- A write under a different key does not affect an integer read. -/
theorem getInt_set_ne {m : SettingsMap} {sec key sec2 key2 : String} {v : SettingValue}
    {d : Int} (h : ¬((sec2, key2) = ((sec, key) : SettingsKey))) :
    SettingsMap.getInt (SettingsMap.set m sec2 key2 v) sec key d =
      SettingsMap.getInt m sec key d := by
  simp [SettingsMap.getInt, SettingsMap.set, SettingsMap.get?, h]

/-- Folding writes whose keys all differ from the probed key does not affect
an integer read. -/
theorem getInt_applyList (ds : List (SettingsKey × SettingValue)) (sec key : String) (d : Int) :
    ∀ m : SettingsMap, (∀ kv ∈ ds, kv.1 ≠ ((sec, key) : SettingsKey)) →
      SettingsMap.getInt
        (ds.foldl (fun a kv => SettingsMap.set a kv.1.1 kv.1.2 kv.2) m) sec key d =
        SettingsMap.getInt m sec key d := by
  induction ds with
  | nil => intro m _; rfl
  | cons kv ds ih =>
    intro m h
    have h1 : kv.1 ≠ ((sec, key) : SettingsKey) := h kv (by simp)
    have h2 : ∀ x ∈ ds, x.1 ≠ ((sec, key) : SettingsKey) := fun x hx => h x (by simp [hx])
    rw [List.foldl_cons, ih _ h2]
    have h3 : ¬(((kv.1.1, kv.1.2) : SettingsKey) = ((sec, key) : SettingsKey)) := by
      simpa using h1
    exact getInt_set_ne h3

/-! Claim theorems. -/

/-- Claim C10: SetFullscreen is idempotent — requesting the state that is
already current returns true with no display-state update, every call
returns true, and for every starting state a second call with the same
argument leaves the bridge in the same state with the same result as one
call. -/
theorem setFullscreen_idempotent (env : Env) (e : Bool) (s : BridgeState) :
    QtHostInterface.SetFullscreen env s.isFullscreen s = (s, [], true) ∧
    (QtHostInterface.SetFullscreen env e s).2.2 = true ∧
    QtHostInterface.SetFullscreen env e (QtHostInterface.SetFullscreen env e s).1 =
      ((QtHostInterface.SetFullscreen env e s).1, [], true) := by
  refine ⟨?_, SetFullscreen_returns_true env e s, ?_⟩
  · simp [QtHostInterface.SetFullscreen]
  · have h := SetFullscreen_flag env e s
    generalize hX : (QtHostInterface.SetFullscreen env e s).1 = X at h ⊢
    simp [QtHostInterface.SetFullscreen, h]

/-- Claim C9: ReportError and ConfirmMessage restore the fullscreen flag to
its pre-call value (the notification itself is emitted from a non-fullscreen
state, and only the fullscreen/display state is ever touched around it: the
system state and settings are preserved, and ConfirmMessage returns the
dialog answer unchanged). -/
theorem report_confirm_preserve_fullscreen (env : Env) (s : BridgeState) :
    (QtHostInterface.ReportError env s).1.isFullscreen = s.isFullscreen ∧
    (QtHostInterface.ConfirmMessage env s).1.isFullscreen = s.isFullscreen ∧
    (QtHostInterface.ReportError env s).1.systemState = s.systemState ∧
    (QtHostInterface.ReportError env s).1.settings = s.settings ∧
    (QtHostInterface.ConfirmMessage env s).1.systemState = s.systemState ∧
    (QtHostInterface.ConfirmMessage env s).1.settings = s.settings ∧
    (QtHostInterface.ConfirmMessage env s).2.2 = env.confirmResponse ∧
    (QtHostInterface.SetFullscreen env false s).1.isFullscreen = false ∧
    Event.emitSignal ("errorReported") ∈ (QtHostInterface.ReportError env s).2 := by
  cases hw : s.isFullscreen <;>
    simp [QtHostInterface.ReportError, QtHostInterface.ConfirmMessage, hw,
      SetFullscreen_flag, SetFullscreen_systemState, SetFullscreen_settings]

/-- Claim C6: the debounced settings save — a burst of mutations starting
with no pending timer leaves exactly one armed single-shot timer with the
fixed SETTINGS_SAVE_DELAY (1000 ms) delay, accumulates all writes in the
store without saving, and the one scheduled save then persists exactly the
final state in one disk write; a mutation arriving while the timer is
pending does not rearm it. -/
theorem settings_save_debounce (st : SettingsTimerState) (mu : Mutation) (ms : List Mutation) :
    (st.timer = none →
      (applyMutations (mu :: ms) st).timer = some SETTINGS_SAVE_DELAY ∧
      (applyMutations (mu :: ms) st).store = mutStore (mu :: ms) st.store ∧
      (applyMutations (mu :: ms) st).saveCount = st.saveCount ∧
      QtHost.SaveSettings false (applyMutations (mu :: ms) st) =
        Except.ok ({ timer := none, store := mutStore (mu :: ms) st.store,
                     disk := mutStore (mu :: ms) st.store,
                     saveCount := st.saveCount + 1 }, [Event.diskSave])) ∧
    (∀ st2 : SettingsTimerState, st2.timer.isSome = true →
      (applyMutation mu st2).timer = st2.timer) ∧
    SETTINGS_SAVE_DELAY = 1000 := by
  refine ⟨?_, ?_, rfl⟩
  · intro h
    have h1 : applyMutations (mu :: ms) st = applyMutations ms (applyMutation mu st) := rfl
    have h2 : applyMutation mu st =
        { st with timer := some SETTINGS_SAVE_DELAY,
                  store := SettingsMap.set st.store mu.1.1 mu.1.2 mu.2 } := by
      simp [applyMutation, QtHost.QueueSettingsSave, h]
    rw [h1, h2, applyMutations_pending ms
      { st with timer := some SETTINGS_SAVE_DELAY,
                store := SettingsMap.set st.store mu.1.1 mu.1.2 mu.2 } (by rfl)]
    exact ⟨rfl, rfl, rfl, rfl⟩
  · intro st2 h2
    rw [applyMutation_pending mu st2 h2]

/-- Claim C7 (code bug): when the run-loop exits with a pending settings
save, the teardown flush of threadEntryPoint calls QtHost::SaveSettings
while still on the worker thread, so SaveSettings' own assertion (saving
must happen on the UI thread) fails before anything is written — the
unsaved store contents are lost rather than flushed. -/
theorem teardown_flush_asserts_on_worker_thread :
    threadTeardownFlush samplePendingSave = Except.error TeardownFailure.assertionFailed ∧
    samplePendingSave.timer.isSome = true ∧
    samplePendingSave.store ≠ samplePendingSave.disk := by
  refine ⟨rfl, rfl, ?_⟩
  decide

/-- Claim C8: the worker-thread initialization version check — a version
stamp different from the expected one fully resets the store (error report,
clear, stamp the expected version, apply defaults, save to disk; afterwards
the stamp reads back as the expected version whenever the defaults do not
overwrite it), while a matching stamp keeps the loaded settings unchanged
with no disk write. -/
theorem settings_version_mismatch_resets (ver : Int)
    (defaults : List (SettingsKey × SettingValue)) (si : SettingsMap) :
    (SettingsMap.getInt si ("Main") ("SettingsVersion") (-1) = ver →
      QtHostInterface.checkSettingsVersion ver defaults si = (si, [])) ∧
    (SettingsMap.getInt si ("Main") ("SettingsVersion") (-1) ≠ ver →
      QtHostInterface.checkSettingsVersion ver defaults si =
        (QtHostInterface.SetDefaultSettingsOn defaults
           (SettingsMap.set [] ("Main") ("SettingsVersion") (SettingValue.i ver)),
         [Event.hostReportError, Event.diskSave]) ∧
      ((∀ kv ∈ defaults, kv.1 ≠ ((("Main"), ("SettingsVersion")) : SettingsKey)) →
        SettingsMap.getInt (QtHostInterface.checkSettingsVersion ver defaults si).1
          ("Main") ("SettingsVersion") (-1) = ver)) := by
  constructor
  · intro h
    simp [QtHostInterface.checkSettingsVersion, h]
  · intro h
    have hchk : QtHostInterface.checkSettingsVersion ver defaults si =
        (QtHostInterface.SetDefaultSettingsOn defaults
           (SettingsMap.set [] ("Main") ("SettingsVersion") (SettingValue.i ver)),
         [Event.hostReportError, Event.diskSave]) := by
      simp [QtHostInterface.checkSettingsVersion, h]
    refine ⟨hchk, ?_⟩
    intro hdef
    rw [hchk]
    simp only [QtHostInterface.SetDefaultSettingsOn]
    rw [getInt_set_ne (by decide), getInt_set_ne (by decide), getInt_set_ne (by decide),
        getInt_set_ne (by decide), getInt_set_ne (by decide), getInt_set_ne (by decide),
        getInt_applyList defaults ("Main") ("SettingsVersion") (-1)
          (SettingsMap.set [] ("Main") ("SettingsVersion") (SettingValue.i ver)) hdef,
        getInt_set_same]

/-- Witness for claim C6: a concrete two-mutation burst from an idle
settings subsystem arms one timer, and one save persists the final state;
a concrete mutation on a pending timer does not rearm it. -/
theorem settings_save_debounce_witness :
    (applyMutations [mutA, mutB] sampleSettings).timer = some SETTINGS_SAVE_DELAY ∧
    QtHost.SaveSettings false (applyMutations [mutA, mutB] sampleSettings) =
      Except.ok ({ timer := none, store := mutStore [mutA, mutB] sampleSettings.store,
                   disk := mutStore [mutA, mutB] sampleSettings.store,
                   saveCount := 1 }, [Event.diskSave]) ∧
    (applyMutation mutA samplePendingSave).timer = samplePendingSave.timer := by
  have h := (settings_save_debounce sampleSettings mutA [mutB]).1 rfl
  exact ⟨h.1, h.2.2.2, (settings_save_debounce sampleSettings mutA []).2.1 samplePendingSave rfl⟩

/-- Witness for claim C8: with expected version 3 and no common defaults, an
empty store (stamp -1) is fully reset and afterwards reads back version 3,
while a store already stamped 3 is kept unchanged with no events. -/
theorem settings_version_mismatch_resets_witness :
    QtHostInterface.checkSettingsVersion 3 [] [] =
      (QtHostInterface.SetDefaultSettingsOn []
         (SettingsMap.set [] ("Main") ("SettingsVersion") (SettingValue.i 3)),
       [Event.hostReportError, Event.diskSave]) ∧
    SettingsMap.getInt (QtHostInterface.checkSettingsVersion 3 [] []).1
      ("Main") ("SettingsVersion") (-1) = 3 ∧
    QtHostInterface.checkSettingsVersion 3 []
        [((("Main"), ("SettingsVersion")), SettingValue.i 3)] =
      ([((("Main"), ("SettingsVersion")), SettingValue.i 3)], []) := by
  have hmm := (settings_version_mismatch_resets 3 [] []).2 (by decide)
  have hok := (settings_version_mismatch_resets 3 []
      [((("Main"), ("SettingsVersion")), SettingValue.i 3)]).1 (by decide)
  exact ⟨hmm.1, hmm.2 (by simp), hok⟩

/-- The worker-side dispatch (the body) never enqueues further commands. -/
theorem dispatch_true_queued (env : Env) (c : Cmd) (s : BridgeState) :
    (QtHostInterface.dispatch env true c s).queued = [] := by
  cases c <;>
    simp only [dispatch_on_worker, QtHostInterface.execBody, HostInterface.PowerOffSystem,
      CommonHostInterface.PauseSystem, QtHostInterface.SetFullscreen,
      QtHostInterface.updateDisplayState, QtHostInterface.checkRenderToMainState] <;>
    (repeat' split) <;> rfl

/-- Claim C1: any public bridge operation invoked from a non-worker thread
does not run its body there: it enqueues exactly its command (with the
connection type the source passes to invokeMethod) and returns, performing
at most the startup cancellation of the power-off family and the caller-side
wait bookkeeping on the calling thread — never emulation stepping, input
polling, rendering or any other body work, which happens only in the
worker-side dispatch (and that worker-side dispatch enqueues nothing). -/
theorem dispatch_offThread_only_enqueues (env : Env) (c : Cmd) (s : BridgeState) :
    (QtHostInterface.dispatch env false c s).queued = [⟨queuedTarget c, queuedMode c⟩] ∧
    (QtHostInterface.dispatch env false c s).events.all Event.isCallerSide = true ∧
    ((QtHostInterface.dispatch env false c s).state = s ∨
      (QtHostInterface.dispatch env false c s).state = { s with startupCancelled := true }) ∧
    (QtHostInterface.dispatch env true c s).queued = [] := by
  refine ⟨?_, ?_, ?_, dispatch_true_queued env c s⟩
  · cases c <;> rfl
  · cases c <;> try rfl
    case executeOnEmulationThread w =>
      cases w
      · rfl
      · simp [QtHostInterface.dispatch, List.all_cons, Event.isCallerSide, syncWait_callerSide]
  · cases c <;> first | exact Or.inl rfl | exact Or.inr rfl

/-- Claim C2 counterexample: saveState with block_until_done is a
SyncBlocking command (its Qt::BlockingQueuedConnection suspends the caller
until the worker thread has run the slot), yet its wait does not service the
caller's event queue — the caller-side trace of a concrete blocking
saveState dispatch is just the enqueue, with no pump events — contradicting
the claim that every SyncBlocking command polls while pumping the UI event
queue. -/
theorem saveState_blocking_does_not_pump :
    queuedMode (Cmd.saveStateSlot true 1 true) = ConnType.blockingQueuedConn ∧
    ConnType.isSyncBlocking ConnType.blockingQueuedConn = true ∧
    ConnType.pumpsCallerEventsWhileWaiting ConnType.blockingQueuedConn = false ∧
    (QtHostInterface.dispatch env0 false (Cmd.saveStateSlot true 1 true) sampleRunning).events =
      [Event.enqueue] :=
  ⟨rfl, rfl, rfl, rfl⟩

/-- Claim C2 (amended): a SyncBlocking command issued from the UI thread
returns only after the worker has completed the body — the state observed at
return is the state after the worker executed the queued operation — and the
blocking executeOnEmulationThread waits by polling the done event with the
10 ms TryWait timeout, pumping the caller's event queue once per failed
poll; saveState's block_until_done variant instead blocks through
Qt::BlockingQueuedConnection, which performs no caller-side event
pumping. -/
theorem syncBlocking_returns_after_body (env : Env) (s : BridgeState) (g : Bool)
    (slot : Int) (f : String) (n : Nat) :
    (blockingInvoke env (Cmd.saveStateSlot g slot true) s).1 =
      (QtHostInterface.dispatch env true (Cmd.saveStateSlot g slot true) s).state ∧
    (blockingInvoke env (Cmd.executeOnEmulationThread true) s).1 =
      (QtHostInterface.dispatch env true (Cmd.executeOnEmulationThread true) s).state ∧
    syncExecuteWaitEvents n =
      List.replicate n Event.pumpCallerEvents ++ [Event.resetDoneEvent] ∧
    SYNC_EXECUTE_POLL_MS = 10 ∧
    queuedMode (Cmd.saveStatePath f true) = ConnType.blockingQueuedConn ∧
    ConnType.pumpsCallerEventsWhileWaiting ConnType.blockingQueuedConn = false :=
  ⟨rfl, rfl, syncWait_replicate n, rfl, rfl, rfl⟩

/-- Claim C3: in the Active state, the run-loop's step performs, in order:
(1) one frame when display_all_frames is set, otherwise a batch of frames;
(2) input polling; (3) when a frame-step was requested, clearing the request
and pausing; (4) rendering; (5) performance-counter update; (6) throttling
when enabled; and the full iteration trace is exactly this active step
followed by the queue drain and PollAndUpdate. -/
theorem runLoop_active_iteration_order (env : Env) (s : BridgeState) (q : List QueuedCall)
    (h : s.systemState = SystemState.running) :
    (QtHostInterface.runLoopActiveStep env s).2 =
      (if s.displayAllFrames then [Event.runFrame] else [Event.runFrames]) ++
        Event.pollSources ::
          ((if s.frameStepRequest then
              [Event.emitSignal ("emulationPaused"), Event.renderDisplay]
            else []) ++
            ([Event.renderDisplay, Event.updatePerfCounters] ++
              (if s.throttlerEnabled then [Event.throttle] else []))) ∧
    (s.frameStepRequest = true →
      (QtHostInterface.runLoopActiveStep env s).1.frameStepRequest = false ∧
      (QtHostInterface.runLoopActiveStep env s).1.systemState = SystemState.paused) ∧
    (s.frameStepRequest = false → (QtHostInterface.runLoopActiveStep env s).1 = s) ∧
    (QtHostInterface.runLoopIteration env s q).2.2 =
      (QtHostInterface.runLoopActiveStep env s).2 ++
        ((drainQueue env (QtHostInterface.runLoopActiveStep env s).1 q).2 ++
          [Event.pollAndUpdate]) := by
  refine ⟨?_, ?_, ?_, ?_⟩
  · cases hf : s.frameStepRequest <;>
      simp [QtHostInterface.runLoopActiveStep, CommonHostInterface.PauseSystem, h, hf]
  · intro hf
    simp [QtHostInterface.runLoopActiveStep, CommonHostInterface.PauseSystem, h, hf]
  · intro hf
    simp [QtHostInterface.runLoopActiveStep, hf]
  · simp [QtHostInterface.runLoopIteration, h, List.append_assoc]

/-- Witness for claim C3: at a concrete running state (display_all_frames
and throttling on, no frame-step pending) the active step's trace is exactly
frame, poll, render, perf-counter update, throttle. -/
theorem runLoop_active_iteration_order_witness :
    sampleRunning.systemState = SystemState.running ∧
    (QtHostInterface.runLoopActiveStep env0 sampleRunning).2 =
      [Event.runFrame, Event.pollSources, Event.renderDisplay,
       Event.updatePerfCounters, Event.throttle] := by
  have h := (runLoop_active_iteration_order env0 sampleRunning [] rfl).1
  refine ⟨rfl, ?_⟩
  rw [h]
  rfl

/-- Claim C4: between iterations, in every run-loop state, the queue is
fully drained: the iteration hands back an empty queue, the executed
commands are exactly the queued ones in FIFO order (so they all run before
the next iteration's emulation step), and in the spec's ordering test —
pause then slot-load queued against a running system — the pause has taken
effect first: the load executes against a paused, not running, system. -/
theorem runLoop_drains_queue_before_next_step (env : Env) (s : BridgeState)
    (q : List QueuedCall) :
    (QtHostInterface.runLoopIteration env s q).2.1 = [] ∧
    execCmds (QtHostInterface.runLoopIteration env s q).2.2 = q.map QueuedCall.cmd ∧
    execCmdSystemStates (drainQueue env0 sampleRunning pauseThenLoad).2 =
      [SystemState.running, SystemState.paused] := by
  refine ⟨?_, ?_, rfl⟩
  · unfold QtHostInterface.runLoopIteration
    (repeat' split) <;> rfl
  · by_cases h1 : s.systemState = SystemState.running
    · simp [QtHostInterface.runLoopIteration, h1, execCmds_append, execCmds_activeStep,
        drainQueue_execCmds, execCmds_pollAndUpdate]
    · by_cases h2 : s.fullscreenUIInitialized = false ∨ s.systemState = SystemState.shutdown
      · simp [QtHostInterface.runLoopIteration, h1, h2, drainQueue_execCmds]
      · simp [QtHostInterface.runLoopIteration, h1, h2, execCmds_render_cons,
          execCmds_append, execCmds_pollAndUpdate, drainQueue_execCmds]

/-- Claim C5: each of the three power-off wrappers, issued from a non-worker
thread while a system boot is still pending, cancels the pending startup
before queueing the power-off command; draining the pending boot followed by
the queued power-off then never passes through the running state — the boot
is cancelled, not raced. -/
theorem powerOff_cancels_pending_boot (env : Env) (s : BridgeState) (po : Cmd)
    (hs : s.systemState = SystemState.shutdown) (hpo : po ∈ powerOffFamily) :
    (QtHostInterface.dispatch env false po s).state.startupCancelled = true ∧
    (QtHostInterface.dispatch env false po s).events =
      [Event.cancelPendingStartup, Event.enqueue] ∧
    ∀ st ∈ drainStates env (QtHostInterface.dispatch env false po s).state
        (⟨Cmd.bootSystem, ConnType.queuedConn⟩ ::
          (QtHostInterface.dispatch env false po s).queued),
      st.systemState ≠ SystemState.running := by
  simp only [powerOffFamily, List.mem_cons, List.not_mem_nil, or_false] at hpo
  rcases hpo with h | h | h
  · subst h
    refine ⟨rfl, rfl, ?_⟩
    intro st hst
    simp [drainStates, dispatch_on_worker, QtHostInterface.execBody,
      HostInterface.PowerOffSystem, QtHostInterface.dispatch, hs] at hst
    rcases hst with rfl | rfl <;> simp [hs]
  · subst h
    refine ⟨rfl, rfl, ?_⟩
    intro st hst
    simp [drainStates, dispatch_on_worker, QtHostInterface.execBody,
      HostInterface.PowerOffSystem, QtHostInterface.dispatch, hs] at hst
    rcases hst with rfl | rfl <;> simp [hs]
  · subst h
    refine ⟨rfl, rfl, ?_⟩
    intro st hst
    simp [drainStates, dispatch_on_worker, QtHostInterface.execBody,
      HostInterface.PowerOffSystem, QtHostInterface.dispatch, hs] at hst
    rcases hst with rfl | rfl <;> simp [hs]

/-- Witness for claim C5: a concrete power off dispatched from the UI thread
over a pending boot cancels the startup, and no state reached while draining
the boot and the power-off is running. -/
theorem powerOff_cancels_pending_boot_witness :
    (QtHostInterface.dispatch env0 false Cmd.powerOffSystem
      sampleShutdown).state.startupCancelled = true ∧
    ∀ st ∈ drainStates env0
        (QtHostInterface.dispatch env0 false Cmd.powerOffSystem sampleShutdown).state
        (⟨Cmd.bootSystem, ConnType.queuedConn⟩ ::
          (QtHostInterface.dispatch env0 false Cmd.powerOffSystem sampleShutdown).queued),
      st.systemState ≠ SystemState.running := by
  have h := powerOff_cancels_pending_boot env0 sampleShutdown Cmd.powerOffSystem rfl
    (by simp [powerOffFamily])
  exact ⟨h.1, h.2.2⟩
